import Mathlib

/-!
Verification development for the Interview-Assist proctoring repository.

The client-side detection core (gaze/presence state tracker, object-detection
debounce tracker, their caller callbacks) and the Express/MongoDB route
handlers are shallowly embedded as executable Lean definitions, translated
from:

* frontend/src/utils/DetectionEngine.ts  (class DetectionEngine)
* the VideoProctoring component (onFaceDetection / onObjectDetection callbacks)
* backend routes for /api/users and /api/sessions

Machine timestamps (Date.now values, milliseconds) are modelled as integers;
durations divided by 1000 and model confidences are modelled as rationals.
-/

namespace InterviewAssist

/-- Result record produced by DetectionEngine.onFaceMeshResults and passed to
the caller's onFaceDetection callback. Durations are in seconds. -/
structure FaceDetectionResult where
  multipleFaces : Bool
  noFace : Bool
  lookingAway : Bool
  noFaceDuration : ℚ
  lookAwayDuration : ℚ
  faceCount : ℕ
  deriving DecidableEq, Repr

/-- The DetectionEngine.gazeState record (interface GazeState). -/
structure GazeState where
  lastFaceTime : ℤ
  lastGazeTime : ℤ
  noFaceStart : Option ℤ
  lookAwayStart : Option ℤ
  isLookingAway : Bool
  hasFace : Bool
  gazeHistory : List Bool
  lookAwayViolationLogged : Bool
  noFaceViolationLogged : Bool
  deriving DecidableEq, Repr

/-- The initial gazeState installed when the DetectionEngine is constructed
(lastFaceTime and lastGazeTime are both Date.now() at construction). -/
def initGazeState (now : ℤ) : GazeState :=
  { lastFaceTime := now
    lastGazeTime := now
    noFaceStart := none
    lookAwayStart := none
    isLookingAway := false
    hasFace := false
    gazeHistory := []
    lookAwayViolationLogged := false
    noFaceViolationLogged := false }

/-- One face-mesh result frame. faceCount is results.multiFaceLandmarks.length;
lookSample abstracts the boolean analyzeLookingAway(landmarks[0]) computed from
the landmark geometry of the first face (the capability-provider boundary:
whenever faceCount > 0, landmarks[0] exists and yields this sample). -/
structure FaceFrame where
  faceCount : ℕ
  lookSample : Bool
  deriving DecidableEq, Repr

/-- DetectionEngine.onFaceMeshResults, the gaze/presence state tracker update
(canvas drawing omitted: it does not touch gazeState). Returns the updated
gazeState together with the FaceDetectionResult handed to the caller. -/
def onFaceMeshResults (s : GazeState) (now : ℤ) (fr : FaceFrame) :
    GazeState × FaceDetectionResult :=
  let multipleFaces := fr.faceCount > 1
  if 0 < fr.faceCount then
    let s1 := { s with hasFace := true, lastFaceTime := now }
    let s2 :=
      if s1.noFaceStart.isSome then
        { s1 with noFaceStart := none, noFaceViolationLogged := false }
      else s1
    -- results.multiFaceLandmarks[0] exists whenever faceCount > 0
    let history1 := s2.gazeHistory ++ [fr.lookSample]
    let history2 := if history1.length > 10 then history1.tail else history1
    let s3 := { s2 with gazeHistory := history2 }
    let lookingAwayCount := (history2.filter (fun b => b)).length
    if 7 ≤ lookingAwayCount then
      let s4 :=
        if s3.lookAwayStart.isNone then
          { s3 with lookAwayStart := some now, lookAwayViolationLogged := false }
        else s3
      let lookAwayDuration := ((now - s4.lookAwayStart.getD now : ℤ) : ℚ) / 1000
      (s4,
        { multipleFaces := multipleFaces, noFace := false, lookingAway := true,
          noFaceDuration := 0, lookAwayDuration := lookAwayDuration,
          faceCount := fr.faceCount })
    else
      let s4 :=
        if s3.lookAwayStart.isSome then
          { s3 with lookAwayStart := none, lookAwayViolationLogged := false }
        else s3
      (s4,
        { multipleFaces := multipleFaces, noFace := false, lookingAway := false,
          noFaceDuration := 0, lookAwayDuration := 0, faceCount := fr.faceCount })
  else
    let s1 := { s with hasFace := false }
    let s2 :=
      if s1.noFaceStart.isNone then
        { s1 with noFaceStart := some now, noFaceViolationLogged := false }
      else s1
    let noFaceDuration := ((now - s2.noFaceStart.getD now : ℤ) : ℚ) / 1000
    let s3 :=
      if s2.lookAwayStart.isSome then
        { s2 with lookAwayStart := none, lookAwayViolationLogged := false }
      else s2
    (s3,
      { multipleFaces := multipleFaces, noFace := true, lookingAway := false,
        noFaceDuration := noFaceDuration, lookAwayDuration := 0,
        faceCount := fr.faceCount })

/-- Event severities used by the VideoProctoring caller. -/
inductive Severity where
  | low
  | medium
  | high
  deriving DecidableEq, Repr

/-- The kinds of events the VideoProctoring callbacks emit via addEvent
(details strings elided; the payload data relevant to the claims is kept). -/
inductive EventKind where
  | multipleFacesEv
  | noFaceEv (duration : ℚ)
  | lookAwayEv (duration : ℚ)
  | objectEv (cls : String) (severity : Severity) (confidence : ℚ)
  deriving DecidableEq, Repr

/-- detectionSettings of VideoProctoring (thresholds in seconds). -/
structure DetectionSettings where
  lookAwayThreshold : ℚ
  noFaceThreshold : ℚ
  deriving DecidableEq, Repr

/-- The initial detectionSettings state (lookAwayThreshold 5, noFaceThreshold 10). -/
def defaultSettings : DetectionSettings :=
  { lookAwayThreshold := 5, noFaceThreshold := 10 }

/-- The caller's onFaceDetection callback (VideoProctoring): emits a
multiple-faces event on every qualifying frame, and the two debounced
violation events gated on duration and the one-shot flags, which it sets
back into the engine's gazeState (shared mutable reference in the source). -/
def onFaceDetection (cfg : DetectionSettings) (s : GazeState)
    (r : FaceDetectionResult) : GazeState × List EventKind :=
  let evs0 : List EventKind :=
    if r.multipleFaces = true then [.multipleFacesEv] else []
  let step1 :=
    if r.noFace = true ∧ r.noFaceDuration > cfg.noFaceThreshold ∧
        s.noFaceViolationLogged = false then
      ({ s with noFaceViolationLogged := true },
        evs0 ++ [.noFaceEv r.noFaceDuration])
    else (s, evs0)
  if r.lookingAway = true ∧ r.lookAwayDuration > cfg.lookAwayThreshold ∧
      step1.1.lookAwayViolationLogged = false then
    ({ step1.1 with lookAwayViolationLogged := true },
      step1.2 ++ [.lookAwayEv r.lookAwayDuration])
  else step1

/-- One face-detection tick as the deployed system runs it: the tracker update
followed synchronously by the caller's onFaceDetection callback. -/
def processFrame (cfg : DetectionSettings) (s : GazeState) (now : ℤ)
    (fr : FaceFrame) : GazeState × FaceDetectionResult × List EventKind :=
  let tr := onFaceMeshResults s now fr
  let ca := onFaceDetection cfg tr.1 tr.2
  (ca.1, tr.2, ca.2)

/-- Number of no-face violation events in an emission list. -/
def countNoFaceEv (evs : List EventKind) : ℕ :=
  (evs.filter (fun e => match e with | .noFaceEv _ => true | _ => false)).length

/-- Process a list of timestamped frames, accumulating the total number of
no-face violation events emitted. -/
def processRun (cfg : DetectionSettings) (s : GazeState) :
    List (ℤ × FaceFrame) → GazeState × ℕ
  | [] => (s, 0)
  | (now, fr) :: rest =>
    let out := processFrame cfg s now fr
    let tailOut := processRun cfg out.1 rest
    (tailOut.1, countNoFaceEv out.2.2 + tailOut.2)

/-- State invariant: the one-shot no-face flag is only ever set while a
no-face episode is in progress (noFaceStart present). -/
def GazeInv (s : GazeState) : Prop :=
  s.noFaceViolationLogged = true → s.noFaceStart.isSome = true

/-- C1: after an update with a face present, the returned lookingAway flag is
true iff at least 7 of the samples in the (post-update, capacity-10 FIFO)
gazeHistory window are true; in particular exactly 6 true samples yield false
and exactly 7 yield true. -/
theorem lookingAway_seven_of_ten (s : GazeState) (now : ℤ) (fr : FaceFrame)
    (hface : 0 < fr.faceCount) :
    ((onFaceMeshResults s now fr).2.lookingAway = true ↔
      7 ≤ ((onFaceMeshResults s now fr).1.gazeHistory.filter (fun b => b)).length) ∧
    (((onFaceMeshResults s now fr).1.gazeHistory.filter (fun b => b)).length = 6 →
      (onFaceMeshResults s now fr).2.lookingAway = false) ∧
    (((onFaceMeshResults s now fr).1.gazeHistory.filter (fun b => b)).length = 7 →
      (onFaceMeshResults s now fr).2.lookingAway = true) := by
  unfold onFaceMeshResults
  rw [if_pos hface]
  dsimp only
  split_ifs with h1 h2 h3 h4 h5 h6 h7 h8 <;>
    simp_all <;> omega

/-- Witness for lookingAway_seven_of_ten at a concrete state with six prior
true samples: pushing a seventh true sample trips the 7-of-10 rule. -/
theorem lookingAway_seven_of_ten_witness :
    ((onFaceMeshResults
        { initGazeState 0 with
            gazeHistory := [true, true, true, true, true, true, false] }
        1000 ⟨1, true⟩).2.lookingAway = true ↔
      7 ≤ (((onFaceMeshResults
        { initGazeState 0 with
            gazeHistory := [true, true, true, true, true, true, false] }
        1000 ⟨1, true⟩).1.gazeHistory.filter (fun b => b)).length)) ∧
    ((((onFaceMeshResults
        { initGazeState 0 with
            gazeHistory := [true, true, true, true, true, true, false] }
        1000 ⟨1, true⟩).1.gazeHistory.filter (fun b => b)).length = 6 →
      (onFaceMeshResults
        { initGazeState 0 with
            gazeHistory := [true, true, true, true, true, true, false] }
        1000 ⟨1, true⟩).2.lookingAway = false)) ∧
    ((((onFaceMeshResults
        { initGazeState 0 with
            gazeHistory := [true, true, true, true, true, true, false] }
        1000 ⟨1, true⟩).1.gazeHistory.filter (fun b => b)).length = 7 →
      (onFaceMeshResults
        { initGazeState 0 with
            gazeHistory := [true, true, true, true, true, true, false] }
        1000 ⟨1, true⟩).2.lookingAway = true)) :=
  lookingAway_seven_of_ten
    { initGazeState 0 with
        gazeHistory := [true, true, true, true, true, true, false] }
    1000 ⟨1, true⟩ (by decide)

/-- processFrame unfolded into its two sequential stages. -/
lemma processFrame_eq (cfg : DetectionSettings) (s : GazeState) (now : ℤ)
    (fr : FaceFrame) :
    processFrame cfg s now fr =
      ((onFaceDetection cfg (onFaceMeshResults s now fr).1
          (onFaceMeshResults s now fr).2).1,
        (onFaceMeshResults s now fr).2,
        (onFaceDetection cfg (onFaceMeshResults s now fr).1
          (onFaceMeshResults s now fr).2).2) := rfl

/-- The caller's onFaceDetection callback never touches noFaceStart. -/
lemma onFaceDetection_noFaceStart (cfg : DetectionSettings) (s : GazeState)
    (r : FaceDetectionResult) :
    (onFaceDetection cfg s r).1.noFaceStart = s.noFaceStart := by
  unfold onFaceDetection
  dsimp only
  split_ifs <;> rfl

/-- Exact emission count and flag update of the caller's no-face policy:
exactly one no-face violation is emitted, and the one-shot flag is raised,
precisely when the frame reports no face past the threshold with the flag
still clear. -/
lemma onFaceDetection_noFace_policy (cfg : DetectionSettings) (s : GazeState)
    (r : FaceDetectionResult) :
    countNoFaceEv (onFaceDetection cfg s r).2 =
      (if r.noFace = true ∧ r.noFaceDuration > cfg.noFaceThreshold ∧
          s.noFaceViolationLogged = false then 1 else 0) ∧
    (onFaceDetection cfg s r).1.noFaceViolationLogged =
      (if r.noFace = true ∧ r.noFaceDuration > cfg.noFaceThreshold ∧
          s.noFaceViolationLogged = false then true
        else s.noFaceViolationLogged) := by
  unfold onFaceDetection countNoFaceEv
  dsimp only
  split_ifs <;> simp_all

/-- Tracker update on a no-face frame: the result reports noFace, an episode
is (or remains) open, and the flag survives only inside an open episode. -/
lemma onFaceMeshResults_noFace_start (s : GazeState) (now : ℤ) (fr : FaceFrame)
    (h0 : fr.faceCount = 0) :
    (onFaceMeshResults s now fr).2.noFace = true ∧
    (onFaceMeshResults s now fr).1.noFaceStart.isSome = true ∧
    (onFaceMeshResults s now fr).1.noFaceViolationLogged =
      (s.noFaceStart.isSome && s.noFaceViolationLogged) := by
  have hnf : ¬ 0 < fr.faceCount := by omega
  unfold onFaceMeshResults
  rw [if_neg hnf]
  dsimp only
  split_ifs <;> simp_all [Option.ne_none_iff_isSome]

/-- Tracker update on a face frame: the result reports a face, and the
one-shot no-face flag is cleared (or was never set outside an episode). -/
lemma onFaceMeshResults_face_flag (s : GazeState) (now : ℤ) (fr : FaceFrame)
    (hface : 0 < fr.faceCount) :
    (onFaceMeshResults s now fr).2.noFace = false ∧
    ((onFaceMeshResults s now fr).1.noFaceViolationLogged = false ∨
      ((onFaceMeshResults s now fr).1.noFaceViolationLogged =
          s.noFaceViolationLogged ∧ s.noFaceStart = none)) := by
  unfold onFaceMeshResults
  rw [if_pos hface]
  dsimp only
  split_ifs <;> simp_all [Option.ne_none_iff_isSome]

/-- Per-frame behaviour on a no-face frame: at most one no-face violation is
emitted, a no-face episode is (or remains) open afterwards, the one-shot flag
is set exactly when an emission happened, and no emission happens when the
flag was already set during an open episode. -/
lemma processFrame_noFace (cfg : DetectionSettings) (s : GazeState) (now : ℤ)
    (fr : FaceFrame) (h0 : fr.faceCount = 0) :
    countNoFaceEv (processFrame cfg s now fr).2.2 ≤ 1 ∧
    (processFrame cfg s now fr).1.noFaceStart.isSome = true ∧
    (countNoFaceEv (processFrame cfg s now fr).2.2 = 0 →
      (processFrame cfg s now fr).1.noFaceViolationLogged =
        (s.noFaceStart.isSome && s.noFaceViolationLogged)) ∧
    (countNoFaceEv (processFrame cfg s now fr).2.2 ≠ 0 →
      (processFrame cfg s now fr).1.noFaceViolationLogged = true) ∧
    ((s.noFaceStart.isSome && s.noFaceViolationLogged) = true →
      countNoFaceEv (processFrame cfg s now fr).2.2 = 0) := by
  have T := onFaceMeshResults_noFace_start s now fr h0
  have C := onFaceDetection_noFace_policy cfg (onFaceMeshResults s now fr).1
    (onFaceMeshResults s now fr).2
  have P := onFaceDetection_noFaceStart cfg (onFaceMeshResults s now fr).1
    (onFaceMeshResults s now fr).2
  rw [processFrame_eq]
  dsimp only
  refine ⟨?_, ?_, ?_, ?_, ?_⟩
  · rw [C.1]
    split_ifs <;> simp
  · rw [P, T.2.1]
  · intro hcount
    rw [C.1] at hcount
    rw [C.2]
    split_ifs at hcount ⊢ with h
    all_goals exact T.2.2
  · intro hcount
    rw [C.1] at hcount
    rw [C.2]
    split_ifs at hcount ⊢ with h
    all_goals first
      | rfl
      | exact absurd rfl hcount
  · intro hB
    rw [C.1]
    have hflag : (onFaceMeshResults s now fr).1.noFaceViolationLogged = true := by
      rw [T.2.2, hB]
    split_ifs with h
    · rw [hflag] at h
      exact absurd h.2.2 (by simp)
    · rfl

/-- Within a contiguous no-face run, once the one-shot flag is set during an
open episode no further no-face violation is emitted. -/
lemma processRun_noFace_logged (cfg : DetectionSettings) (s : GazeState)
    (frames : List (ℤ × FaceFrame))
    (hall : ∀ p ∈ frames, (p : ℤ × FaceFrame).2.faceCount = 0)
    (hB : (s.noFaceStart.isSome && s.noFaceViolationLogged) = true) :
    (processRun cfg s frames).2 = 0 := by
  induction frames generalizing s with
  | nil => rfl
  | cons p rest ih =>
    obtain ⟨now, fr⟩ := p
    have h0 : fr.faceCount = 0 := hall _ (List.mem_cons_self _ _)
    have H := processFrame_noFace cfg s now fr h0
    have hc : countNoFaceEv (processFrame cfg s now fr).2.2 = 0 := H.2.2.2.2 hB
    have hB2 : ((processFrame cfg s now fr).1.noFaceStart.isSome &&
        (processFrame cfg s now fr).1.noFaceViolationLogged) = true := by
      rw [H.2.1, H.2.2.1 hc, hB]; rfl
    have hrest := ih (processFrame cfg s now fr).1
      (fun q hq => hall q (List.mem_cons_of_mem _ hq)) hB2
    simp [processRun, hc, hrest]

/-- Within any contiguous no-face run, starting from any state, at most one
no-face violation is emitted. -/
lemma processRun_noFace_le_one (cfg : DetectionSettings) (s : GazeState)
    (frames : List (ℤ × FaceFrame))
    (hall : ∀ p ∈ frames, (p : ℤ × FaceFrame).2.faceCount = 0) :
    (processRun cfg s frames).2 ≤ 1 := by
  induction frames generalizing s with
  | nil => simp [processRun]
  | cons p rest ih =>
    obtain ⟨now, fr⟩ := p
    have h0 : fr.faceCount = 0 := hall _ (List.mem_cons_self _ _)
    have H := processFrame_noFace cfg s now fr h0
    by_cases hc : countNoFaceEv (processFrame cfg s now fr).2.2 = 0
    · have hrest := ih (processFrame cfg s now fr).1
        (fun q hq => hall q (List.mem_cons_of_mem _ hq))
      simp [processRun, hc]
      exact hrest
    · have hB2 : ((processFrame cfg s now fr).1.noFaceStart.isSome &&
          (processFrame cfg s now fr).1.noFaceViolationLogged) = true := by
        rw [H.2.1, H.2.2.2.1 hc]; rfl
      have hrest := processRun_noFace_logged cfg (processFrame cfg s now fr).1
        rest (fun q hq => hall q (List.mem_cons_of_mem _ hq)) hB2
      have hle := H.1
      simp [processRun, hrest]
      omega

/-- A frame with a face present resets the one-shot no-face flag (under the
episode invariant, which all reachable states satisfy). -/
lemma processFrame_face_resets (cfg : DetectionSettings) (s : GazeState)
    (now : ℤ) (fr : FaceFrame) (hface : 0 < fr.faceCount) (hinv : GazeInv s) :
    (processFrame cfg s now fr).1.noFaceViolationLogged = false := by
  have T := onFaceMeshResults_face_flag s now fr hface
  have C := onFaceDetection_noFace_policy cfg (onFaceMeshResults s now fr).1
    (onFaceMeshResults s now fr).2
  have hflag : (onFaceMeshResults s now fr).1.noFaceViolationLogged = false := by
    rcases T.2 with h | ⟨heq, hnone⟩
    · exact h
    · rw [heq]
      by_contra hne
      have : s.noFaceViolationLogged = true := by
        cases hsv : s.noFaceViolationLogged
        · exact absurd hsv hne
        · rfl
      have := hinv this
      rw [hnone] at this
      simp at this
  rw [processFrame_eq]
  dsimp only
  rw [C.2, T.1]
  simp [hflag]

/-- The episode invariant is preserved by every processed frame. -/
lemma gazeInv_processFrame (cfg : DetectionSettings) (s : GazeState)
    (now : ℤ) (fr : FaceFrame) (hinv : GazeInv s) :
    GazeInv (processFrame cfg s now fr).1 := by
  by_cases hface : 0 < fr.faceCount
  · intro hflag
    rw [processFrame_face_resets cfg s now fr hface hinv] at hflag
    exact absurd hflag (by simp)
  · have h0 : fr.faceCount = 0 := by omega
    have H := processFrame_noFace cfg s now fr h0
    intro _
    exact H.2.1

/-- The initial gazeState satisfies the episode invariant. -/
lemma gazeInv_init (now : ℤ) : GazeInv (initGazeState now) := by
  intro h
  simp [initGazeState] at h

/-- C2: across the tracker together with its caller, the no-face violation is
emitted at most once per contiguous run of hasFace = false frames (from any
starting state, hence per maximal run, whatever its duration), and an
intervening hasFace = true frame resets noFaceViolationLogged to false; the
episode invariant used is preserved by every frame. -/
theorem noFace_violation_once_per_run (cfg : DetectionSettings)
    (s sF : GazeState) (frames : List (ℤ × FaceFrame)) (now : ℤ)
    (fr : FaceFrame)
    (hall : ∀ p ∈ frames, (p : ℤ × FaceFrame).2.faceCount = 0)
    (hface : 0 < fr.faceCount) (hinv : GazeInv sF) :
    (processRun cfg s frames).2 ≤ 1 ∧
    (processFrame cfg sF now fr).1.noFaceViolationLogged = false ∧
    GazeInv (processFrame cfg sF now fr).1 :=
  ⟨processRun_noFace_le_one cfg s frames hall,
   processFrame_face_resets cfg sF now fr hface hinv,
   gazeInv_processFrame cfg sF now fr hinv⟩

/-- Witness for noFace_violation_once_per_run: a concrete two-frame no-face
run past the 10 s threshold, then a face frame. -/
theorem noFace_violation_once_per_run_witness :
    (processRun defaultSettings (initGazeState 0)
      [(11000, ⟨0, false⟩), (12000, ⟨0, false⟩)]).2 ≤ 1 ∧
    (processFrame defaultSettings (initGazeState 0) 0
      ⟨1, false⟩).1.noFaceViolationLogged = false ∧
    GazeInv (processFrame defaultSettings (initGazeState 0) 0 ⟨1, false⟩).1 :=
  noFace_violation_once_per_run defaultSettings (initGazeState 0)
    (initGazeState 0) [(11000, ⟨0, false⟩), (12000, ⟨0, false⟩)] 0 ⟨1, false⟩
    (by decide) (by decide) (gazeInv_init 0)

/-- C9: a no-face frame leaves gazeHistory untouched, so the first face frame
after the face returns extends the pre-episode window (old samples still count
toward the 7-of-10 rule). -/
theorem gazeHistory_survives_noFace (s : GazeState) (now later : ℤ)
    (fr frF : FaceFrame) (h0 : fr.faceCount = 0) (hface : 0 < frF.faceCount) :
    (onFaceMeshResults s now fr).1.gazeHistory = s.gazeHistory ∧
    (onFaceMeshResults (onFaceMeshResults s now fr).1 later frF).1.gazeHistory =
      (if (s.gazeHistory ++ [frF.lookSample]).length > 10
       then (s.gazeHistory ++ [frF.lookSample]).tail
       else s.gazeHistory ++ [frF.lookSample]) := by
  have hnf : ¬ 0 < fr.faceCount := by omega
  have h1 : (onFaceMeshResults s now fr).1.gazeHistory = s.gazeHistory := by
    unfold onFaceMeshResults
    rw [if_neg hnf]
    dsimp only
    split_ifs <;> rfl
  refine ⟨h1, ?_⟩
  conv_lhs => rw [onFaceMeshResults]
  rw [if_pos hface]
  dsimp only
  rw [h1]
  split_ifs <;> simp_all

/-- Witness for gazeHistory_survives_noFace at a concrete pre-episode window. -/
theorem gazeHistory_survives_noFace_witness :
    (onFaceMeshResults
      { initGazeState 0 with gazeHistory := [true, true, false] }
      500 ⟨0, false⟩).1.gazeHistory = [true, true, false] ∧
    (onFaceMeshResults
      (onFaceMeshResults
        { initGazeState 0 with gazeHistory := [true, true, false] }
        500 ⟨0, false⟩).1 700 ⟨1, true⟩).1.gazeHistory =
      (if (([true, true, false] : List Bool) ++ [true]).length > 10
       then (([true, true, false] : List Bool) ++ [true]).tail
       else ([true, true, false] : List Bool) ++ [true]) :=
  gazeHistory_survives_noFace
    { initGazeState 0 with gazeHistory := [true, true, false] }
    500 700 ⟨0, false⟩ ⟨1, true⟩ rfl (by decide)

/-- A detected object as delivered to the caller (interface DetectedObject;
the bounding box is omitted: the debounce logic never reads it). -/
structure Det where
  cls : String
  confidence : ℚ
  deriving DecidableEq, Repr

/-- The caller's detectedObjectsRef debounce map: a JS Map from object class
to last-seen timestamp, modelled as an insertion-ordered association list. -/
abbrev DebMap := List (String × ℤ)

/-- JS Map.get (first entry with the key; a Map holds each key once). -/
def mapGet : DebMap → String → Option ℤ
  | [], _ => none
  | (k0, v0) :: t, k => if k0 = k then some v0 else mapGet t k

/-- JS Map.set: update in place (keeping insertion position) if the key
exists, else append at the end. -/
def mapSet : DebMap → String → ℤ → DebMap
  | [], k, v => [(k, v)]
  | (k0, v0) :: t, k, v =>
    if k0 = k then (k, v) :: t else (k0, v0) :: mapSet t k v

/-- The prohibitedItems list of DetectionEngine.isProhibitedObject. -/
def prohibitedItems : List String :=
  ["cell phone", "laptop", "book", "keyboard", "mouse", "tablet", "remote"]

/-- Contiguous-sublist test on character lists. -/
def subMatch (sub : List Char) : List Char → Bool
  | [] => List.isPrefixOf sub []
  | c :: t => List.isPrefixOf sub (c :: t) || subMatch sub t

/-- JS String.prototype.includes (substring test). -/
def strIncludes (s sub : String) : Bool :=
  subMatch sub.toList s.toList

/-- JS String.prototype.toLowerCase, charwise. -/
def strToLower (s : String) : String :=
  String.mk (s.toList.map Char.toLower)

/-- DetectionEngine.isProhibitedObject. -/
def isProhibitedObject (className : String) : Bool :=
  prohibitedItems.any (fun item =>
    strIncludes (strToLower className) item ||
      strIncludes item (strToLower className))

/-- Severity policy of the object callback: cell phone is high, others medium. -/
def severityFor (cls : String) : Severity :=
  if cls = "cell phone" then .high else .medium

/-- The objects.forEach loop of the caller's onObjectDetection callback:
accumulates the currentObjects set (insertion-ordered list, membership only),
the debounce map, and the emitted alert events. -/
def objLoop (now : ℤ) : List Det → List String → DebMap → List EventKind →
    List String × DebMap × List EventKind
  | [], cur, m, evs => (cur, m, evs)
  | o :: os, cur, m, evs =>
    if o.confidence > 45 / 100 then
      let cur2 := if o.cls ∈ cur then cur else cur ++ [o.cls]
      match mapGet m o.cls with
      | none =>
        objLoop now os cur2 (mapSet m o.cls now)
          (evs ++ [.objectEv o.cls (severityFor o.cls) o.confidence])
      | some last =>
        if now - last > 3000 then
          objLoop now os cur2 (mapSet m o.cls now)
            (evs ++ [.objectEv o.cls (severityFor o.cls) o.confidence])
        else objLoop now os cur2 m evs
    else objLoop now os cur m evs

/-- The caller's onObjectDetection callback: the detection loop followed by
the stale-entry sweep (delete entries absent from the current frame whose
last-seen time is more than 5000 ms old). Returns the updated debounce map
and the emitted events. -/
def onObjectDetection (now : ℤ) (objects : List Det) (m : DebMap) :
    DebMap × List EventKind :=
  let r := objLoop now objects [] m []
  (r.2.1.filter (fun p => decide (p.1 ∈ r.1) || decide (now - p.2 ≤ 5000)),
    r.2.2)

/-- Process a sequence of timestamped object-detection frames, accumulating
the debounce map and all emitted events. -/
def runObjFrames (m : DebMap) : List (ℤ × List Det) → DebMap × List EventKind
  | [] => (m, [])
  | (now, objs) :: rest =>
    let r := onObjectDetection now objs m
    let tailOut := runObjFrames r.1 rest
    (tailOut.1, r.2 ++ tailOut.2)

/-- The alert condition of the debounce loop for one detection against the
map state at the moment it is processed: confidence above 0.45 and the class
absent from the map or last seen more than 3000 ms ago. -/
def alertCond (now : ℤ) (m : DebMap) (o : Det) : Bool :=
  decide (o.confidence > 45 / 100) &&
    (match mapGet m o.cls with
      | none => true
      | some last => decide (now - last > 3000))

/-- Map.set then Map.get at the same key yields the new value. -/
lemma mapGet_mapSet_self (m : DebMap) (k : String) (v : ℤ) :
    mapGet (mapSet m k v) k = some v := by
  induction m with
  | nil => simp [mapSet, mapGet]
  | cons a t ih =>
    obtain ⟨k0, v0⟩ := a
    by_cases h : k0 = k
    · simp [mapSet, mapGet, h]
    · simp [mapSet, mapGet, h, ih]

/-- Map.set does not affect Map.get at other keys. -/
lemma mapGet_mapSet_ne (m : DebMap) (k : String) (v : ℤ) (c : String)
    (hne : c ≠ k) :
    mapGet (mapSet m k v) c = mapGet m c := by
  induction m with
  | nil =>
    have hkc : k ≠ c := fun hh => hne hh.symm
    simp [mapSet, mapGet, hkc]
  | cons a t ih =>
    obtain ⟨k0, v0⟩ := a
    by_cases h : k0 = k
    · subst h
      have hkc : k0 ≠ c := fun hh => hne hh.symm
      simp [mapSet, mapGet, hkc]
    · by_cases h2 : k0 = c <;> simp [mapSet, mapGet, h, h2, hne, ih]

/-- Filtering does not change a key's lookup when every entry at that key
passes the filter. -/
lemma mapGet_filter_of_pass (m : DebMap) (c : String) (p : String × ℤ → Bool)
    (hall : ∀ v : ℤ, p (c, v) = true) :
    mapGet (m.filter p) c = mapGet m c := by
  induction m with
  | nil => rfl
  | cons a t ih =>
    obtain ⟨k0, v0⟩ := a
    by_cases hk : k0 = c
    · subst hk
      rw [List.filter_cons_of_pos (hall v0)]
      simp [mapGet]
    · by_cases hp : p (k0, v0) = true
      · rw [List.filter_cons_of_pos hp]
        simp [mapGet, hk, ih]
      · rw [List.filter_cons_of_neg (by simpa using hp)]
        simp [mapGet, hk, ih]

/-- A map with no entry at a key looks up to none. -/
lemma mapGet_eq_none_of_all_ne (m : DebMap) (c : String)
    (h : ∀ q ∈ m, (q : String × ℤ).1 ≠ c) : mapGet m c = none := by
  induction m with
  | nil => rfl
  | cons a t ih =>
    obtain ⟨k0, v0⟩ := a
    have hk : k0 ≠ c := h (k0, v0) (List.mem_cons_self _ _)
    simp [mapGet, hk]
    exact ih (fun q hq => h q (List.mem_cons_of_mem _ hq))

/-- Keys of the debounce map are pairwise distinct (true of every JS Map). -/
def KeysNodup (m : DebMap) : Prop :=
  m.Pairwise (fun a b => a.1 ≠ b.1)

/-- Filtering a duplicate-free map: the unique entry at a key survives iff
it passes the filter. -/
lemma mapGet_filter_unique (m : DebMap) (c : String) (ts : ℤ)
    (p : String × ℤ → Bool) (hkeys : KeysNodup m) (hget : mapGet m c = some ts) :
    mapGet (m.filter p) c = (if p (c, ts) = true then some ts else none) := by
  induction m with
  | nil => simp [mapGet] at hget
  | cons a t ih =>
    obtain ⟨k0, v0⟩ := a
    have hpw := (List.pairwise_cons.mp hkeys)
    by_cases hk : k0 = c
    · subst hk
      have hv : v0 = ts := by simpa [mapGet] using hget
      subst hv
      have hnone : mapGet (t.filter p) k0 = none := by
        apply mapGet_eq_none_of_all_ne
        intro q hq
        exact Ne.symm (hpw.1 q (List.mem_of_mem_filter hq))
      by_cases hp : p (k0, v0) = true
      · rw [List.filter_cons_of_pos hp]
        simp [mapGet, hp]
      · rw [List.filter_cons_of_neg (by simpa using hp)]
        simp [hp, hnone]
    · have hget2 : mapGet t c = some ts := by simpa [mapGet, hk] using hget
      have ih2 := ih hpw.2 hget2
      by_cases hp : p (k0, v0) = true
      · rw [List.filter_cons_of_pos hp]
        simp [mapGet, hk, ih2]
      · rw [List.filter_cons_of_neg (by simpa using hp)]
        exact ih2

/-- Evaluation of the detection loop on a single-detection frame. -/
lemma objLoop_single (now : ℤ) (o : Det) (m : DebMap) :
    objLoop now [o] [] m [] =
      ((if o.confidence > 45 / 100 then [o.cls] else []),
       (if alertCond now m o = true then mapSet m o.cls now else m),
       (if alertCond now m o = true
        then [.objectEv o.cls (severityFor o.cls) o.confidence] else [])) := by
  unfold alertCond
  by_cases hc : o.confidence > 45 / 100
  · cases hm : mapGet m o.cls with
    | none => simp [objLoop, hm, hc]
    | some last =>
      by_cases h3 : now - last > 3000
      · simp [objLoop, hm, hc, h3]
      · simp [objLoop, hm, hc, h3]
  · simp [objLoop, hc]


/-- C4: per detection against the debounce map at processing time, an alert is
produced iff the confidence exceeds 0.45 and the class is absent or stale
(last seen more than 3000 ms ago); an alert stamps the entry with the current
time, a suppressed qualifying detection leaves the entry unchanged; and a
class detected continuously at times 0..4000 ms yields exactly one alert at
t = 0 and the second only at t = 4000 (> 3000 ms later). -/
theorem object_alert_debounce (now : ℤ) (o : Det) (m : DebMap) :
    ((onObjectDetection now [o] m).2 =
      (if alertCond now m o = true
       then [.objectEv o.cls (severityFor o.cls) o.confidence] else [])) ∧
    (alertCond now m o = true →
      mapGet (onObjectDetection now [o] m).1 o.cls = some now) ∧
    (o.confidence > 45 / 100 → alertCond now m o = false →
      mapGet (onObjectDetection now [o] m).1 o.cls = mapGet m o.cls) ∧
    (runObjFrames []
      [(0, [⟨"cell phone", 9/10⟩]), (1000, [⟨"cell phone", 9/10⟩]),
       (2000, [⟨"cell phone", 9/10⟩]), (3000, [⟨"cell phone", 9/10⟩])]).2 =
      [.objectEv "cell phone" .high (9/10)] ∧
    (runObjFrames []
      [(0, [⟨"cell phone", 9/10⟩]), (1000, [⟨"cell phone", 9/10⟩]),
       (2000, [⟨"cell phone", 9/10⟩]), (3000, [⟨"cell phone", 9/10⟩]),
       (4000, [⟨"cell phone", 9/10⟩])]).2 =
      [.objectEv "cell phone" .high (9/10),
       .objectEv "cell phone" .high (9/10)] := by
  refine ⟨?_, ?_, ?_, ?_, ?_⟩
  · show ((objLoop now [o] [] m []).2.1.filter _,
      (objLoop now [o] [] m []).2.2).2 = _
    rw [objLoop_single]
  · intro halert
    have hc : o.confidence > 45 / 100 := by
      have := halert
      unfold alertCond at this
      simp only [Bool.and_eq_true, decide_eq_true_eq] at this
      exact this.1
    show mapGet ((objLoop now [o] [] m []).2.1.filter
      (fun p => decide (p.1 ∈ (objLoop now [o] [] m []).1) ||
        decide (now - p.2 ≤ 5000))) o.cls = some now
    rw [objLoop_single]
    simp only [halert, eq_self_iff_true, if_true]
    rw [if_pos hc]
    rw [mapGet_filter_of_pass _ _ _ (fun v => by simp)]
    exact mapGet_mapSet_self m o.cls now
  · intro hc hnal
    show mapGet ((objLoop now [o] [] m []).2.1.filter
      (fun p => decide (p.1 ∈ (objLoop now [o] [] m []).1) ||
        decide (now - p.2 ≤ 5000))) o.cls = mapGet m o.cls
    rw [objLoop_single]
    simp only [hnal, Bool.false_eq_true, if_false]
    rw [if_pos hc]
    exact mapGet_filter_of_pass _ _ _ (fun v => by simp)
  · norm_num [runObjFrames, onObjectDetection, objLoop, mapGet, mapSet,
      alertCond, severityFor]
  · norm_num [runObjFrames, onObjectDetection, objLoop, mapGet, mapSet,
      alertCond, severityFor]

/-- Witness for object_alert_debounce at a concrete stale entry: the alert
fires and restamps the entry. -/
theorem object_alert_debounce_witness :
    ((onObjectDetection 4000 [⟨"cell phone", 9/10⟩] [("cell phone", 0)]).2 =
      (if alertCond 4000 [("cell phone", 0)] ⟨"cell phone", 9/10⟩ = true
       then [.objectEv "cell phone" (severityFor "cell phone") (9/10)]
       else [])) ∧
    (alertCond 4000 [("cell phone", 0)] ⟨"cell phone", 9/10⟩ = true →
      mapGet (onObjectDetection 4000 [⟨"cell phone", 9/10⟩]
        [("cell phone", 0)]).1 "cell phone" = some 4000) ∧
    ((9 : ℚ)/10 > 45 / 100 →
      alertCond 4000 [("cell phone", 0)] ⟨"cell phone", 9/10⟩ = false →
      mapGet (onObjectDetection 4000 [⟨"cell phone", 9/10⟩]
        [("cell phone", 0)]).1 "cell phone" = mapGet [("cell phone", 0)] "cell phone") ∧
    (runObjFrames []
      [(0, [⟨"cell phone", 9/10⟩]), (1000, [⟨"cell phone", 9/10⟩]),
       (2000, [⟨"cell phone", 9/10⟩]), (3000, [⟨"cell phone", 9/10⟩])]).2 =
      [.objectEv "cell phone" .high (9/10)] ∧
    (runObjFrames []
      [(0, [⟨"cell phone", 9/10⟩]), (1000, [⟨"cell phone", 9/10⟩]),
       (2000, [⟨"cell phone", 9/10⟩]), (3000, [⟨"cell phone", 9/10⟩]),
       (4000, [⟨"cell phone", 9/10⟩])]).2 =
      [.objectEv "cell phone" .high (9/10),
       .objectEv "cell phone" .high (9/10)] :=
  object_alert_debounce 4000 ⟨"cell phone", 9/10⟩ [("cell phone", 0)]

/-- Membership after a JS Set.add. -/
lemma mem_setAdd (cur : List String) (x c : String) :
    (c ∈ (if x ∈ cur then cur else cur ++ [x]) ↔ c ∈ cur ∨ c = x) := by
  split_ifs with h
  · constructor
    · exact fun hc => Or.inl hc
    · rintro (hc | rfl)
      · exact hc
      · exact h
  · simp [List.mem_append]

/-- The currentObjects set after the loop holds exactly the starting members
and the classes of qualifying (confidence above 0.45) detections. -/
lemma objLoop_cur_mem (now : ℤ) (os : List Det) (cur : List String)
    (m : DebMap) (evs : List EventKind) (c : String) :
    (c ∈ (objLoop now os cur m evs).1 ↔
      c ∈ cur ∨ ∃ o ∈ os, (o : Det).cls = c ∧ o.confidence > 45 / 100) := by
  induction os generalizing cur m evs with
  | nil => simp [objLoop]
  | cons o t ih =>
    unfold objLoop
    by_cases hc : o.confidence > 45 / 100
    · rw [if_pos hc]
      cases hm : mapGet m o.cls with
      | none =>
        dsimp only
        rw [ih, mem_setAdd]
        simp only [List.mem_cons]
        constructor
        · rintro ((h | rfl) | h)
          · exact Or.inl h
          · exact Or.inr ⟨o, Or.inl rfl, rfl, hc⟩
          · obtain ⟨o2, ho2, h2⟩ := h
            exact Or.inr ⟨o2, Or.inr ho2, h2⟩
        · rintro (h | ⟨o2, (rfl | ho2), h2⟩)
          · exact Or.inl (Or.inl h)
          · exact Or.inl (Or.inr h2.1.symm)
          · exact Or.inr ⟨o2, ho2, h2⟩
      | some last =>
        by_cases h3 : now - last > 3000 <;>
          · simp only [h3, if_true, if_false, dite_eq_ite]
            rw [ih, mem_setAdd]
            simp only [List.mem_cons]
            constructor
            · rintro ((h | rfl) | h)
              · exact Or.inl h
              · exact Or.inr ⟨o, Or.inl rfl, rfl, hc⟩
              · obtain ⟨o2, ho2, h2⟩ := h
                exact Or.inr ⟨o2, Or.inr ho2, h2⟩
            · rintro (h | ⟨o2, (rfl | ho2), h2⟩)
              · exact Or.inl (Or.inl h)
              · exact Or.inl (Or.inr h2.1.symm)
              · exact Or.inr ⟨o2, ho2, h2⟩
    · rw [if_neg hc]
      rw [ih]
      simp only [List.mem_cons]
      constructor
      · rintro (h | h)
        · exact Or.inl h
        · obtain ⟨o2, ho2, h2⟩ := h
          exact Or.inr ⟨o2, Or.inr ho2, h2⟩
      · rintro (h | ⟨o2, (rfl | ho2), h2⟩)
        · exact Or.inl h
        · exact absurd h2.2 hc
        · exact Or.inr ⟨o2, ho2, h2⟩

/-- A class with no qualifying detection in the frame keeps its map entry
(and value) through the detection loop. -/
lemma objLoop_mapGet_untouched (now : ℤ) (os : List Det) (cur : List String)
    (m : DebMap) (evs : List EventKind) (c : String)
    (h : ∀ o ∈ os, (o : Det).cls = c → ¬ o.confidence > 45 / 100) :
    mapGet (objLoop now os cur m evs).2.1 c = mapGet m c := by
  induction os generalizing cur m evs with
  | nil => rfl
  | cons o t ih =>
    have htail : ∀ o2 ∈ t, (o2 : Det).cls = c → ¬ o2.confidence > 45 / 100 :=
      fun o2 ho2 => h o2 (List.mem_cons_of_mem _ ho2)
    unfold objLoop
    by_cases hc : o.confidence > 45 / 100
    · have hcls : o.cls ≠ c := by
        intro he
        exact h o (List.mem_cons_self _ _) he hc
      rw [if_pos hc]
      cases hm : mapGet m o.cls with
      | none =>
        dsimp only
        rw [ih _ _ _ htail, mapGet_mapSet_ne m o.cls now c (Ne.symm hcls)]
      | some last =>
        by_cases h3 : now - last > 3000
        · simp only [h3, if_true]
          rw [ih _ _ _ htail, mapGet_mapSet_ne m o.cls now c (Ne.symm hcls)]
        · simp only [h3, if_false]
          rw [ih _ _ _ htail]
    · rw [if_neg hc]
      exact ih _ _ _ htail

/-- A class already in the map, or with a qualifying detection in the frame,
still has a map entry after the detection loop. -/
lemma objLoop_mapGet_isSome (now : ℤ) (os : List Det) (cur : List String)
    (m : DebMap) (evs : List EventKind) (c : String)
    (h : (mapGet m c).isSome = true ∨
      ∃ o ∈ os, (o : Det).cls = c ∧ o.confidence > 45 / 100) :
    (mapGet (objLoop now os cur m evs).2.1 c).isSome = true := by
  induction os generalizing cur m evs with
  | nil =>
    rcases h with h | ⟨o, ho, _⟩
    · exact h
    · simp at ho
  | cons o t ih =>
    unfold objLoop
    have hnext : ∀ m2 : DebMap, (mapGet m2 c).isSome = true ∨
        (∃ o2 ∈ t, (o2 : Det).cls = c ∧ o2.confidence > 45 / 100) →
        True := fun _ _ => trivial
    by_cases hc : o.confidence > 45 / 100
    · rw [if_pos hc]
      cases hm : mapGet m o.cls with
      | none =>
        dsimp only
        apply ih
        by_cases he : o.cls = c
        · subst he
          left
          rw [mapGet_mapSet_self]
          rfl
        · rcases h with h | ⟨o2, ho2, he2, hc2⟩
          · left
            rw [mapGet_mapSet_ne m o.cls now c (Ne.symm he)]
            exact h
          · rcases List.mem_cons.mp ho2 with rfl | ho2t
            · exact absurd he2 he
            · exact Or.inr ⟨o2, ho2t, he2, hc2⟩
      | some last =>
        by_cases h3 : now - last > 3000
        · simp only [h3, if_true]
          apply ih
          by_cases he : o.cls = c
          · subst he
            left
            rw [mapGet_mapSet_self]
            rfl
          · rcases h with h | ⟨o2, ho2, he2, hc2⟩
            · left
              rw [mapGet_mapSet_ne m o.cls now c (Ne.symm he)]
              exact h
            · rcases List.mem_cons.mp ho2 with rfl | ho2t
              · exact absurd he2 he
              · exact Or.inr ⟨o2, ho2t, he2, hc2⟩
        · simp only [h3, if_false]
          apply ih
          by_cases he : o.cls = c
          · subst he
            left
            rw [hm]
            rfl
          · rcases h with h | ⟨o2, ho2, he2, hc2⟩
            · exact Or.inl h
            · rcases List.mem_cons.mp ho2 with rfl | ho2t
              · exact absurd he2 he
              · exact Or.inr ⟨o2, ho2t, he2, hc2⟩
    · rw [if_neg hc]
      apply ih
      rcases h with h | ⟨o2, ho2, he2, hc2⟩
      · exact Or.inl h
      · rcases List.mem_cons.mp ho2 with rfl | ho2t
        · exact absurd hc2 hc
        · exact Or.inr ⟨o2, ho2t, he2, hc2⟩

/-- Members of a map after Map.set come from the old map or are the new pair. -/
lemma mem_mapSet (m : DebMap) (k : String) (v : ℤ) (b : String × ℤ)
    (hb : b ∈ mapSet m k v) : b ∈ m ∨ b = (k, v) := by
  induction m with
  | nil => simpa [mapSet] using hb
  | cons a t ih =>
    obtain ⟨k0, v0⟩ := a
    by_cases h : k0 = k
    · rw [mapSet, if_pos h] at hb
      rcases List.mem_cons.mp hb with rfl | hbt
      · exact Or.inr rfl
      · exact Or.inl (List.mem_cons_of_mem _ hbt)
    · rw [mapSet, if_neg h] at hb
      rcases List.mem_cons.mp hb with rfl | hbt
      · exact Or.inl (List.mem_cons_self _ _)
      · rcases ih hbt with hbm | rfl
        · exact Or.inl (List.mem_cons_of_mem _ hbm)
        · exact Or.inr rfl

/-- Map.set preserves duplicate-freedom of keys. -/
lemma keysNodup_mapSet (m : DebMap) (k : String) (v : ℤ) (h : KeysNodup m) :
    KeysNodup (mapSet m k v) := by
  induction m with
  | nil => simp [mapSet, KeysNodup]
  | cons a t ih =>
    obtain ⟨k0, v0⟩ := a
    have hpw := List.pairwise_cons.mp h
    by_cases hk : k0 = k
    · subst hk
      rw [KeysNodup, mapSet, if_pos rfl]
      exact List.pairwise_cons.mpr ⟨fun b hb => hpw.1 b hb, hpw.2⟩
    · rw [KeysNodup, mapSet, if_neg hk]
      refine List.pairwise_cons.mpr ⟨?_, ih hpw.2⟩
      intro b hb
      rcases mem_mapSet t k v b hb with hbt | rfl
      · exact hpw.1 b hbt
      · exact hk

/-- The detection loop preserves duplicate-freedom of map keys. -/
lemma keysNodup_objLoop (now : ℤ) (os : List Det) (cur : List String)
    (m : DebMap) (evs : List EventKind) (h : KeysNodup m) :
    KeysNodup (objLoop now os cur m evs).2.1 := by
  induction os generalizing cur m evs with
  | nil => exact h
  | cons o t ih =>
    unfold objLoop
    by_cases hc : o.confidence > 45 / 100
    · rw [if_pos hc]
      cases hm : mapGet m o.cls with
      | none => exact ih _ _ _ (keysNodup_mapSet m o.cls now h)
      | some last =>
        by_cases h3 : now - last > 3000
        · simp only [h3, if_true]
          exact ih _ _ _ (keysNodup_mapSet m o.cls now h)
        · simp only [h3, if_false]
          exact ih _ _ _ h
    · rw [if_neg hc]
      exact ih _ _ _ h

/-- The full object callback preserves duplicate-freedom of map keys. -/
lemma keysNodup_onObjectDetection (now : ℤ) (objects : List Det) (m : DebMap)
    (h : KeysNodup m) : KeysNodup (onObjectDetection now objects m).1 :=
  List.Pairwise.sublist (List.filter_sublist _)
    (keysNodup_objLoop now objects [] m [] h)

/-- No detection in the frame is a qualifying one for this class. -/
def classAbsent (objects : List Det) (c : String) : Bool :=
  objects.all (fun o => !(o.cls == c) || !(decide (o.confidence > 45 / 100)))

/-- Some detection in the frame is a qualifying one for this class. -/
def classPresent (objects : List Det) (c : String) : Bool :=
  objects.any (fun o => (o.cls == c) && decide (o.confidence > 45 / 100))

/-- C5: in a full object-callback update, a map entry whose class has no
qualifying detection in the frame is removed iff it is more than 5000 ms old
(otherwise it is retained with its value); an entry whose class is present in
the frame is never evicted; concretely, an entry absent for 4000 ms survives
and one absent for 5001 ms is evicted. -/
theorem object_map_eviction (now : ℤ) (objects : List Det) (m : DebMap)
    (c : String) (ts : ℤ) (hkeys : KeysNodup m)
    (hget : mapGet m c = some ts) :
    (classAbsent objects c = true →
      ((mapGet (onObjectDetection now objects m).1 c = none ↔
          now - ts > 5000) ∧
        (mapGet (onObjectDetection now objects m).1 c = some ts ↔
          ¬ now - ts > 5000))) ∧
    (classPresent objects c = true →
      (mapGet (onObjectDetection now objects m).1 c).isSome = true) ∧
    mapGet (onObjectDetection 4000 [] [("X", 0)]).1 "X" = some 0 ∧
    mapGet (onObjectDetection 5001 [] [("X", 0)]).1 "X" = none := by
  refine ⟨?_, ?_, by decide, by decide⟩
  · intro habs
    have habs2 : ∀ o ∈ objects, (o : Det).cls = c → ¬ o.confidence > 45 / 100 := by
      intro o ho he hc
      have := (List.all_eq_true.mp habs) o ho
      simp [he, hc] at this
    have hloop : mapGet (objLoop now objects [] m []).2.1 c = mapGet m c :=
      objLoop_mapGet_untouched now objects [] m [] c habs2
    have hcur : c ∉ (objLoop now objects [] m []).1 := by
      rw [objLoop_cur_mem]
      rintro (hc | ⟨o, ho, he, hconf⟩)
      · simp at hc
      · exact habs2 o ho he hconf
    have hkl : KeysNodup (objLoop now objects [] m []).2.1 :=
      keysNodup_objLoop now objects [] m [] hkeys
    have hgl : mapGet (objLoop now objects [] m []).2.1 c = some ts := by
      rw [hloop, hget]
    have hfu := mapGet_filter_unique (objLoop now objects [] m []).2.1 c ts
      (fun p => decide (p.1 ∈ (objLoop now objects [] m []).1) ||
        decide (now - p.2 ≤ 5000)) hkl hgl
    have hpv : (decide (c ∈ (objLoop now objects [] m []).1) ||
        decide (now - ts ≤ 5000)) = decide (now - ts ≤ 5000) := by
      simp [hcur]
    show ((mapGet ((objLoop now objects [] m []).2.1.filter _) c = none ↔ _) ∧
      (mapGet ((objLoop now objects [] m []).2.1.filter _) c = some ts ↔ _))
    rw [hfu]
    dsimp only
    rw [hpv]
    constructor
    · by_cases h5 : now - ts ≤ 5000 <;> simp [h5] <;> omega
    · by_cases h5 : now - ts ≤ 5000 <;> simp [h5]
  · intro hpres
    have hex : ∃ o ∈ objects, (o : Det).cls = c ∧ o.confidence > 45 / 100 := by
      obtain ⟨o, ho, hb⟩ := List.any_eq_true.mp hpres
      simp only [Bool.and_eq_true, beq_iff_eq, decide_eq_true_eq] at hb
      exact ⟨o, ho, hb.1, hb.2⟩
    have hsome := objLoop_mapGet_isSome now objects [] m [] c (Or.inr hex)
    have hcur : c ∈ (objLoop now objects [] m []).1 := by
      rw [objLoop_cur_mem]
      exact Or.inr hex
    have hpass : ∀ v : ℤ, (decide ((c, v).1 ∈ (objLoop now objects [] m []).1) ||
        decide (now - (c, v).2 ≤ 5000)) = true := by
      intro v
      simp [hcur]
    show (mapGet ((objLoop now objects [] m []).2.1.filter _) c).isSome = true
    rw [mapGet_filter_of_pass _ _ _ hpass]
    exact hsome

/-- Witness for object_map_eviction: a concrete one-entry map with the class
absent from the frame and 4000 ms old. -/
theorem object_map_eviction_witness :
    (classAbsent [] "X" = true →
      ((mapGet (onObjectDetection 4000 [] [("X", 0)]).1 "X" = none ↔
          (4000 : ℤ) - 0 > 5000) ∧
        (mapGet (onObjectDetection 4000 [] [("X", 0)]).1 "X" = some 0 ↔
          ¬ (4000 : ℤ) - 0 > 5000))) ∧
    (classPresent [] "X" = true →
      (mapGet (onObjectDetection 4000 [] [("X", 0)]).1 "X").isSome = true) ∧
    mapGet (onObjectDetection 4000 [] [("X", 0)]).1 "X" = some 0 ∧
    mapGet (onObjectDetection 5001 [] [("X", 0)]).1 "X" = none :=
  object_map_eviction 4000 [] [("X", 0)] "X" 0 (by simp [KeysNodup]) (by decide)

/-- The observable state of the DetectionEngine together with its caller:
the detectionActive flag, the tracker's gazeState, the caller's debounce map,
the number of object inferences in flight (begun while active, not yet
resolved), and the accumulated event log. -/
structure EngineState where
  detectionActive : Bool
  gazeState : GazeState
  detectedObjects : DebMap
  pendingObject : ℕ
  log : List EventKind
  deriving DecidableEq, Repr

/-- Engine after construction plus startDetection. -/
def initEngine (now : ℤ) : EngineState :=
  { detectionActive := true
    gazeState := initGazeState now
    detectedObjects := []
    pendingObject := 0
    log := [] }

/-- Events of the single-threaded cooperative schedule:
stopDetection; a face-mesh result callback arriving (onFaceMeshResults runs,
checking detectionActive at that moment); an object-detection tick entering
runObjectDetection (its guard checks detectionActive before the awaited
inference starts); and the resolution of an in-flight object inference (the
code after the await, which performs no further detectionActive check). -/
inductive EngineEv where
  | stop
  | faceResult (now : ℤ) (fr : FaceFrame)
  | objectTick
  | objectResolve (now : ℤ) (objs : List Det)
  deriving DecidableEq, Repr

/-- One scheduler step of the engine/caller composite, translated from
stopDetection, onFaceMeshResults, runObjectDetection and the caller's
onObjectDetection callback. -/
def engineStep (cfg : DetectionSettings) (e : EngineState) :
    EngineEv → EngineState
  | .stop => { e with detectionActive := false }
  | .faceResult now fr =>
    if e.detectionActive = true then
      let out := processFrame cfg e.gazeState now fr
      { e with gazeState := out.1, log := e.log ++ out.2.2 }
    else e
  | .objectTick =>
    if e.detectionActive = true then
      { e with pendingObject := e.pendingObject + 1 }
    else e
  | .objectResolve now objs =>
    if e.pendingObject = 0 then e
    else
      let dets := objs.filter (fun o =>
        isProhibitedObject o.cls && decide (o.confidence > 45 / 100))
      if dets.isEmpty then { e with pendingObject := e.pendingObject - 1 }
      else
        let r := onObjectDetection now dets e.detectedObjects
        { e with
            pendingObject := e.pendingObject - 1
            detectedObjects := r.1
            log := e.log ++ r.2 }

/-- Run the engine over a list of scheduler events. -/
def engineRun (cfg : DetectionSettings) (e : EngineState) :
    List EngineEv → EngineState
  | [] => e
  | ev :: evs => engineRun cfg (engineStep cfg e ev) evs

/-- C3 counterexample: an object inference begins while detection is active,
stopDetection runs, and the inference then resolves. The resolution still
invokes the caller's onObjectDetection (the code after the await performs no
detectionActive re-check), so the debounce map is mutated after stop returned:
it was empty at the stop and holds the cell-phone entry afterwards, refuting
"any capability-provider callback that arrives after the stop call is dropped
and does not update gazeState or the debounce map". -/
theorem stop_drop_counterexample :
    (engineRun defaultSettings (initEngine 0)
      [.objectTick, .stop]).detectionActive = false ∧
    (engineRun defaultSettings (initEngine 0)
      [.objectTick, .stop]).detectedObjects = [] ∧
    (engineRun defaultSettings (initEngine 0)
      [.objectTick, .stop,
        .objectResolve 1000 [⟨"cell phone", 9/10⟩]]).detectedObjects =
      [("cell phone", 1000)] := by
  refine ⟨rfl, rfl, ?_⟩
  have h1 : isProhibitedObject "cell phone" = true := by decide
  have h2 : ((9 : ℚ)/10 > 45/100) := by norm_num
  norm_num [engineRun, engineStep, initEngine, onObjectDetection, objLoop,
    mapGet, mapSet, severityFor, h1, h2]

/-- C3 amended: after stopDetection, face-mesh results are dropped (they
re-check detectionActive when the callback runs) and no new object inference
starts; an object resolution mutates nothing unless an inference begun before
the stop is still in flight (the source performs no re-check after its await,
so such an in-flight resolution is still applied). stopDetection itself leaves
gazeState and the debounce map untouched. -/
theorem stop_drops_callbacks_except_inflight (cfg : DetectionSettings)
    (e : EngineState) (now : ℤ) (fr : FaceFrame) (objs : List Det)
    (hstopped : e.detectionActive = false) :
    engineStep cfg e (.faceResult now fr) = e ∧
    engineStep cfg e .objectTick = e ∧
    (e.pendingObject = 0 → engineStep cfg e (.objectResolve now objs) = e) ∧
    (engineStep cfg e .stop).gazeState = e.gazeState ∧
    (engineStep cfg e .stop).detectedObjects = e.detectedObjects := by
  refine ⟨?_, ?_, ?_, rfl, rfl⟩
  · simp [engineStep, hstopped]
  · simp [engineStep, hstopped]
  · intro hp
    simp [engineStep, hp]

/-- Witness for stop_drops_callbacks_except_inflight at a concrete stopped
engine state with no inference in flight. -/
theorem stop_drops_callbacks_except_inflight_witness :
    engineStep defaultSettings
      { initEngine 0 with detectionActive := false }
      (.faceResult 500 ⟨1, true⟩) =
      { initEngine 0 with detectionActive := false } ∧
    engineStep defaultSettings
      { initEngine 0 with detectionActive := false } .objectTick =
      { initEngine 0 with detectionActive := false } ∧
    (({ initEngine 0 with detectionActive := false } : EngineState).pendingObject = 0 →
      engineStep defaultSettings
        { initEngine 0 with detectionActive := false }
        (.objectResolve 500 [⟨"cell phone", 9/10⟩]) =
        { initEngine 0 with detectionActive := false }) ∧
    (engineStep defaultSettings
      { initEngine 0 with detectionActive := false } .stop).gazeState =
      ({ initEngine 0 with detectionActive := false } : EngineState).gazeState ∧
    (engineStep defaultSettings
      { initEngine 0 with detectionActive := false } .stop).detectedObjects =
      ({ initEngine 0 with detectionActive := false } : EngineState).detectedObjects :=
  stop_drops_callbacks_except_inflight defaultSettings
    { initEngine 0 with detectionActive := false } 500 ⟨1, true⟩
    [⟨"cell phone", 9/10⟩] rfl

/-- A stored user document (User model: uniqueId unique-indexed, name
required, email optional; createdAt elided, never read by the routes). -/
structure User where
  uniqueId : String
  name : String
  email : Option String
  deriving DecidableEq, Repr

/-- The users collection, in insertion order. -/
structure UsersDb where
  users : List User
  deriving DecidableEq, Repr

/-- User.findOne({uniqueId}). -/
def findOneUser (db : UsersDb) (uid : String) : Option User :=
  db.users.find? (fun u => u.uniqueId == uid)

/-- JS falsiness of an optional string route-body field: absent or empty. -/
def falsyStr : Option String → Bool
  | none => true
  | some s => s == ""

/-- Response of POST /api/users (500 unreachable in the model: no thrown
database errors are modelled). -/
inductive UsersResp where
  | badRequest
  | ok (user : User)
  deriving DecidableEq, Repr

/-- Request body of POST /api/users. -/
structure UsersBody where
  uniqueId : Option String
  name : Option String
  email : Option String
  deriving DecidableEq, Repr

/-- The POST /api/users handler: 400 if uniqueId or name is missing,
otherwise find-or-create by uniqueId and return the user document. -/
def postUsers (db : UsersDb) (body : UsersBody) : UsersResp × UsersDb :=
  if falsyStr body.uniqueId || falsyStr body.name then (.badRequest, db)
  else
    let uid := body.uniqueId.getD ""
    match findOneUser db uid with
    | some u => (.ok u, db)
    | none =>
      let u : User := { uniqueId := uid, name := body.name.getD "",
                        email := body.email }
      (.ok u, { db with users := db.users ++ [u] })

/-- A stored session document (Session model; metadata and createdAt elided,
never read by the handlers under verification). -/
structure SessionDoc where
  id : ℕ
  userId : ℕ
  startedAt : ℤ
  endedAt : Option ℤ
  deriving DecidableEq, Repr

/-- An object-valued payload, modelled as key-value pairs ({} is []). -/
abbrev Payload := List (String × String)

/-- A stored log document (Log model). -/
structure LogDoc where
  session : ℕ
  type : String
  timestamp : ℤ
  payload : Payload
  deriving DecidableEq, Repr

/-- The sessions and logs collections. -/
structure BackendDb where
  sessionDocs : List SessionDoc
  logDocs : List LogDoc
  deriving DecidableEq, Repr

/-- Session.findById. -/
def findSessionById (db : BackendDb) (sid : ℕ) : Option SessionDoc :=
  db.sessionDocs.find? (fun s => s.id == sid)

/-- Response of PATCH /api/sessions/:sessionId/end. -/
inductive SessionResp where
  | notFound
  | ok (s : SessionDoc)
  deriving DecidableEq, Repr

/-- The PATCH /api/sessions/:sessionId/end handler: 404 if the session is
unknown, otherwise set endedAt to the current time, save, and return the
updated session. -/
def patchSessionEnd (db : BackendDb) (sid : ℕ) (now : ℤ) :
    SessionResp × BackendDb :=
  match findSessionById db sid with
  | none => (.notFound, db)
  | some s =>
    let s2 := { s with endedAt := some now }
    (.ok s2,
      { db with sessionDocs :=
          db.sessionDocs.map (fun u => if u.id == s.id then s2 else u) })

/-- One item of the POST logs body. -/
structure LogItem where
  type : Option String
  timestamp : Option ℤ
  payload : Option Payload
  deriving DecidableEq, Repr

/-- The POST logs body: a single log object or an array of them. -/
inductive LogsBody where
  | one (it : LogItem)
  | many (items : List LogItem)
  deriving DecidableEq, Repr

/-- Array.isArray(body) ? body : [body]. -/
def bodyItems : LogsBody → List LogItem
  | .one it => [it]
  | .many l => l

/-- Document built per item: type defaults to unknown on a missing or empty
(falsy) type, timestamp defaults to the receipt time, payload defaults to the
empty object. -/
def mkLogDoc (sid : ℕ) (now : ℤ) (it : LogItem) : LogDoc :=
  { session := sid
    type := match it.type with
      | none => "unknown"
      | some t => if t == "" then "unknown" else t
    timestamp := it.timestamp.getD now
    payload := it.payload.getD [] }

/-- Response of POST /api/sessions/:sessionId/logs. -/
inductive LogsResp where
  | notFound
  | created (inserted : ℕ)
  deriving DecidableEq, Repr

/-- The POST /api/sessions/:sessionId/logs handler: 404 if the session is
unknown, otherwise insertMany of the per-item documents and 201 with the
inserted count. -/
def postLogs (db : BackendDb) (sid : ℕ) (now : ℤ) (body : LogsBody) :
    LogsResp × BackendDb :=
  match findSessionById db sid with
  | none => (.notFound, db)
  | some s =>
    let docs := (bodyItems body).map (mkLogDoc s.id now)
    (.created docs.length, { db with logDocs := db.logDocs ++ docs })

/-- The ascending-timestamp order of the GET handler's sort. -/
def tsLe (a b : LogDoc) : Prop := a.timestamp ≤ b.timestamp

instance : DecidableRel tsLe := fun a b => Int.decLe a.timestamp b.timestamp

instance : IsTotal LogDoc tsLe := ⟨fun a b => Int.le_total a.timestamp b.timestamp⟩

instance : IsTrans LogDoc tsLe := ⟨fun _ _ _ h1 h2 => le_trans h1 h2⟩

/-- The Mongo find().sort({timestamp: 1}) of the GET handler, modelled as a
stable insertion sort by timestamp. -/
def sortByTimestamp (l : List LogDoc) : List LogDoc :=
  l.insertionSort tsLe

/-- Response of GET /api/sessions/:sessionId/logs. -/
structure GetLogsResp where
  logs : List LogDoc
  page : ℕ
  limit : ℕ
  deriving DecidableEq, Repr

/-- The GET /api/sessions/:sessionId/logs handler: page defaults to 0 (and is
clamped at 0, implicit in the ℕ model), limit defaults to 100 and is capped
at 1000; returns the session's logs sorted by ascending timestamp, skipping
page*limit and taking limit. -/
def getLogs (db : BackendDb) (sid : ℕ) (pageQ limitQ : Option ℕ) :
    GetLogsResp :=
  let page := pageQ.getD 0
  let limit := min 1000 (limitQ.getD 100)
  let sorted := sortByTimestamp (db.logDocs.filter (fun d => d.session == sid))
  { logs := (sorted.drop (page * limit)).take limit, page := page,
    limit := limit }

/-- C6: POST /api/users is an idempotent upsert keyed by uniqueId. Two
sequential calls with the same uniqueId and different names return the same
user document and the second call leaves the store unchanged; when the
uniqueId is fresh, the stored and returned name is the first call's. -/
theorem postUsers_idempotent_first_write_wins (db : UsersDb)
    (uid n1 n2 : String) (e1 e2 : Option String)
    (hu : falsyStr (some uid) = false) (hn1 : falsyStr (some n1) = false)
    (hn2 : falsyStr (some n2) = false) :
    (postUsers (postUsers db ⟨some uid, some n1, e1⟩).2
        ⟨some uid, some n2, e2⟩).1 =
      (postUsers db ⟨some uid, some n1, e1⟩).1 ∧
    (postUsers (postUsers db ⟨some uid, some n1, e1⟩).2
        ⟨some uid, some n2, e2⟩).2 =
      (postUsers db ⟨some uid, some n1, e1⟩).2 ∧
    (findOneUser db uid = none →
      (postUsers db ⟨some uid, some n1, e1⟩).1 =
        .ok { uniqueId := uid, name := n1, email := e1 }) := by
  have hcond1 : ¬ ((falsyStr (some uid) || falsyStr (some n1)) = true) := by
    simp [hu, hn1]
  have hcond2 : ¬ ((falsyStr (some uid) || falsyStr (some n2)) = true) := by
    simp [hu, hn2]
  cases hf : findOneUser db uid with
  | some u =>
    have h1 : postUsers db ⟨some uid, some n1, e1⟩ = (.ok u, db) := by
      unfold postUsers
      rw [if_neg hcond1]
      dsimp only [Option.getD]
      rw [hf]
    have h2 : postUsers db ⟨some uid, some n2, e2⟩ = (.ok u, db) := by
      unfold postUsers
      rw [if_neg hcond2]
      dsimp only [Option.getD]
      rw [hf]
    rw [h1]
    exact ⟨by rw [h2], by rw [h2], fun h => absurd h (by simp)⟩
  | none =>
    have h1 : postUsers db ⟨some uid, some n1, e1⟩ =
        (.ok { uniqueId := uid, name := n1, email := e1 },
          { db with users := db.users ++
              [{ uniqueId := uid, name := n1, email := e1 }] }) := by
      unfold postUsers
      rw [if_neg hcond1]
      dsimp only [Option.getD]
      rw [hf]
    have hf2 : findOneUser
        { db with users := db.users ++
            [{ uniqueId := uid, name := n1, email := e1 }] } uid =
        some { uniqueId := uid, name := n1, email := e1 } := by
      unfold findOneUser at hf ⊢
      dsimp only
      rw [List.find?_append, hf, Option.none_or]
      simp
    have h2 : postUsers
        { db with users := db.users ++
            [{ uniqueId := uid, name := n1, email := e1 }] }
        ⟨some uid, some n2, e2⟩ =
        (.ok { uniqueId := uid, name := n1, email := e1 },
          { db with users := db.users ++
              [{ uniqueId := uid, name := n1, email := e1 }] }) := by
      unfold postUsers
      rw [if_neg hcond2]
      dsimp only [Option.getD]
      rw [hf2]
    rw [h1]
    exact ⟨by rw [h2], by rw [h2], fun _ => rfl⟩

/-- Witness for postUsers_idempotent_first_write_wins on an empty store. -/
theorem postUsers_idempotent_first_write_wins_witness :
    (postUsers (postUsers ⟨[]⟩ ⟨some "u1", some "Alice", none⟩).2
        ⟨some "u1", some "Bob", none⟩).1 =
      (postUsers ⟨[]⟩ ⟨some "u1", some "Alice", none⟩).1 ∧
    (postUsers (postUsers ⟨[]⟩ ⟨some "u1", some "Alice", none⟩).2
        ⟨some "u1", some "Bob", none⟩).2 =
      (postUsers ⟨[]⟩ ⟨some "u1", some "Alice", none⟩).2 ∧
    (findOneUser ⟨[]⟩ "u1" = none →
      (postUsers ⟨[]⟩ ⟨some "u1", some "Alice", none⟩).1 =
        .ok { uniqueId := "u1", name := "Alice", email := none }) :=
  postUsers_idempotent_first_write_wins ⟨[]⟩ "u1" "Alice" "Bob" none none
    (by decide) (by decide) (by decide)

/-- Replacing the found session document by one with the same id makes the
same search find the replacement. -/
lemma find?_replace_by_id (l : List SessionDoc) (sid : ℕ) (s s2 : SessionDoc)
    (hfind : l.find? (fun u => u.id == sid) = some s) (hid : s2.id = s.id) :
    (l.map (fun u => if u.id == s.id then s2 else u)).find?
      (fun u => u.id == sid) = some s2 := by
  have hsid : s.id = sid := by simpa using List.find?_some hfind
  induction l with
  | nil => cases hfind
  | cons a t ih =>
    by_cases ha : a.id = sid
    · rw [List.find?_cons_of_pos _ (by simp [ha])] at hfind
      injection hfind with h
      subst h
      rw [List.map_cons, if_pos (by simp)]
      rw [List.find?_cons_of_pos _ (by simp [hid, hsid])]
    · rw [List.find?_cons_of_neg _ (by simp [ha])] at hfind
      rw [List.map_cons]
      by_cases hae : a.id = s.id
      · exact absurd (hae.trans hsid) ha
      · rw [if_neg (by simp [hae])]
        rw [List.find?_cons_of_neg _ (by simp [ha])]
        exact ih hfind

/-- C8: PATCH /api/sessions/:id/end called twice on an existing session
succeeds both times; the second call silently overwrites endedAt with its own
time, both in the response and in the store; an unknown id yields 404 and
leaves the store unchanged. -/
lemma patchSessionEnd_found (db : BackendDb) (sid : ℕ) (now : ℤ)
    (s : SessionDoc) (hs : findSessionById db sid = some s) :
    patchSessionEnd db sid now =
      (.ok { s with endedAt := some now },
        { db with sessionDocs := (db.sessionDocs.map (fun u =>
            if u.id == s.id then { s with endedAt := some now } else u)) }) := by
  unfold patchSessionEnd
  rw [hs]

theorem patchEnd_twice_overwrites (db : BackendDb) (sid sidU : ℕ)
    (t1 t2 : ℤ) (s : SessionDoc)
    (hs : findSessionById db sid = some s)
    (hnone : findSessionById db sidU = none) :
    (patchSessionEnd db sid t1).1 = .ok { s with endedAt := some t1 } ∧
    (patchSessionEnd (patchSessionEnd db sid t1).2 sid t2).1 =
      .ok { s with endedAt := some t2 } ∧
    findSessionById
        (patchSessionEnd (patchSessionEnd db sid t1).2 sid t2).2 sid =
      some { s with endedAt := some t2 } ∧
    (patchSessionEnd db sidU t1).1 = .notFound ∧
    (patchSessionEnd db sidU t1).2 = db := by
  have hs0 : db.sessionDocs.find? (fun u => u.id == sid) = some s := hs
  have h1 := patchSessionEnd_found db sid t1 s hs
  have hf1 : findSessionById (patchSessionEnd db sid t1).2 sid =
      some { s with endedAt := some t1 } := by
    show (patchSessionEnd db sid t1).2.sessionDocs.find?
      (fun u => u.id == sid) = some { s with endedAt := some t1 }
    rw [h1]
    exact find?_replace_by_id db.sessionDocs sid s _ hs0 rfl
  have hf10 : (patchSessionEnd db sid t1).2.sessionDocs.find?
      (fun u => u.id == sid) = some { s with endedAt := some t1 } := hf1
  have h2 := patchSessionEnd_found (patchSessionEnd db sid t1).2 sid t2
    { s with endedAt := some t1 } hf1
  have hf2 : findSessionById
      (patchSessionEnd (patchSessionEnd db sid t1).2 sid t2).2 sid =
      some { s with endedAt := some t2 } := by
    show (patchSessionEnd (patchSessionEnd db sid t1).2 sid t2).2.sessionDocs.find?
      (fun u => u.id == sid) = some { s with endedAt := some t2 }
    rw [h2]
    exact find?_replace_by_id _ sid { s with endedAt := some t1 } _ hf10 rfl
  have h404 : patchSessionEnd db sidU t1 = (.notFound, db) := by
    unfold patchSessionEnd
    rw [hnone]
  refine ⟨by rw [h1], by rw [h2], hf2, by rw [h404], by rw [h404]⟩

/-- Witness for patchEnd_twice_overwrites on a one-session store. -/
theorem patchEnd_twice_overwrites_witness :
    (patchSessionEnd ⟨[⟨1, 1, 0, none⟩], []⟩ 1 50).1 =
      .ok { id := 1, userId := 1, startedAt := 0, endedAt := some 50 } ∧
    (patchSessionEnd (patchSessionEnd ⟨[⟨1, 1, 0, none⟩], []⟩ 1 50).2 1 80).1 =
      .ok { id := 1, userId := 1, startedAt := 0, endedAt := some 80 } ∧
    findSessionById
        (patchSessionEnd
          (patchSessionEnd ⟨[⟨1, 1, 0, none⟩], []⟩ 1 50).2 1 80).2 1 =
      some { id := 1, userId := 1, startedAt := 0, endedAt := some 80 } ∧
    (patchSessionEnd ⟨[⟨1, 1, 0, none⟩], []⟩ 2 50).1 = .notFound ∧
    (patchSessionEnd ⟨[⟨1, 1, 0, none⟩], []⟩ 2 50).2 =
      ⟨[⟨1, 1, 0, none⟩], []⟩ :=
  patchEnd_twice_overwrites ⟨[⟨1, 1, 0, none⟩], []⟩ 1 2 50 80
    ⟨1, 1, 0, none⟩ (by decide) (by decide)

/-- C10: POST logs on an existing session never rejects an item for missing
fields: the response is 201 with the inserted count, the documents are
appended, a missing type is stored as unknown and a missing payload as the
empty object. -/
theorem postLogs_never_rejects (db : BackendDb) (sid : ℕ) (now : ℤ)
    (body : LogsBody) (s : SessionDoc) (it1 it2 : LogItem)
    (hs : findSessionById db sid = some s)
    (hty : it1.type = none) (hpl : it2.payload = none) :
    (postLogs db sid now body).1 = .created (bodyItems body).length ∧
    (postLogs db sid now body).2.logDocs =
      db.logDocs ++ (bodyItems body).map (mkLogDoc s.id now) ∧
    (mkLogDoc s.id now it1).type = "unknown" ∧
    (mkLogDoc s.id now it2).payload = [] := by
  have h1 : postLogs db sid now body =
      (.created ((bodyItems body).map (mkLogDoc s.id now)).length,
        { db with logDocs :=
            (db.logDocs ++ (bodyItems body).map (mkLogDoc s.id now)) }) := by
    unfold postLogs
    rw [hs]
  refine ⟨by rw [h1]; simp, by rw [h1], ?_, ?_⟩
  · simp [mkLogDoc, hty]
  · simp [mkLogDoc, hpl]

/-- Witness for postLogs_never_rejects: a one-item body with no type and no
payload against a one-session store. -/
theorem postLogs_never_rejects_witness :
    (postLogs ⟨[⟨1, 1, 0, none⟩], []⟩ 1 7
        (.many [⟨none, none, none⟩])).1 =
      .created (bodyItems (.many [⟨none, none, none⟩])).length ∧
    (postLogs ⟨[⟨1, 1, 0, none⟩], []⟩ 1 7
        (.many [⟨none, none, none⟩])).2.logDocs =
      [] ++ (bodyItems (.many [⟨none, none, none⟩])).map (mkLogDoc 1 7) ∧
    (mkLogDoc 1 7 ⟨none, some 3, some [("k", "v")]⟩).type = "unknown" ∧
    (mkLogDoc 1 7 ⟨some "violation", none, none⟩).payload = [] :=
  postLogs_never_rejects ⟨[⟨1, 1, 0, none⟩], []⟩ 1 7
    (.many [⟨none, none, none⟩]) ⟨1, 1, 0, none⟩
    ⟨none, some 3, some [("k", "v")]⟩ ⟨some "violation", none, none⟩
    (by decide) rfl rfl

/-- C7 counterexample: with a fresh session, POSTing an array of 101 items
returns inserted = 101, but the subsequent GET (claim's plain
GET /api/sessions/:id/logs, default pagination, limit 100) returns only 100
logs, so it does not return the inserted logs. -/
theorem postLogs_get_roundtrip_counterexample :
    (postLogs ⟨[⟨1, 1, 0, none⟩], []⟩ 1 7
        (.many (List.replicate 101 ⟨some "violation", some 5, none⟩))).1 =
      .created 101 ∧
    (getLogs (postLogs ⟨[⟨1, 1, 0, none⟩], []⟩ 1 7
        (.many (List.replicate 101 ⟨some "violation", some 5, none⟩))).2 1
        none none).logs.length = 100 ∧
    ((postLogs ⟨[⟨1, 1, 0, none⟩], []⟩ 1 7
        (.many (List.replicate 101 ⟨some "violation", some 5, none⟩))).2.logDocs.length =
      101) := by
  refine ⟨by decide, by decide, by decide⟩

/-- C7 amended: for an existing session with no prior logs and an array of at
most the default page limit (100) items, POST inserts exactly n documents and
returns inserted = n (each missing timestamp defaulting to the receipt time),
and the subsequent default GET returns exactly those documents sorted by
ascending timestamp. (For larger arrays the GET returns only one page — see
the counterexample.) -/
theorem postLogs_then_get_sorted (db : BackendDb) (sid : ℕ) (now : ℤ)
    (items : List LogItem) (s : SessionDoc) (it : LogItem)
    (hs : findSessionById db sid = some s)
    (hfresh : db.logDocs.filter (fun d => d.session == sid) = [])
    (hn : items.length ≤ 100)
    (hts : it.timestamp = none) :
    (postLogs db sid now (.many items)).1 = .created items.length ∧
    ((getLogs (postLogs db sid now (.many items)).2 sid none none).logs.Perm
      (items.map (mkLogDoc s.id now))) ∧
    List.Pairwise tsLe
      (getLogs (postLogs db sid now (.many items)).2 sid none none).logs ∧
    (mkLogDoc s.id now it).timestamp = now := by
  have hsid : s.id = sid := by simpa using List.find?_some hs
  have h1 : postLogs db sid now (.many items) =
      (.created (items.map (mkLogDoc s.id now)).length,
        { db with logDocs :=
            (db.logDocs ++ items.map (mkLogDoc s.id now)) }) := by
    unfold postLogs
    rw [hs]
    rfl
  have hfilter : ((postLogs db sid now (.many items)).2.logDocs.filter
      (fun d => d.session == sid)) = items.map (mkLogDoc s.id now) := by
    rw [h1]
    dsimp only
    rw [List.filter_append, hfresh, List.nil_append]
    apply List.filter_eq_self.mpr
    intro d hd
    obtain ⟨i, hi, rfl⟩ := List.mem_map.mp hd
    simp [mkLogDoc, hsid]
  have hperm : (sortByTimestamp (items.map (mkLogDoc s.id now))).Perm
      (items.map (mkLogDoc s.id now)) := List.perm_insertionSort tsLe _
  have hsorted : List.Pairwise tsLe
      (sortByTimestamp (items.map (mkLogDoc s.id now))) :=
    List.sorted_insertionSort tsLe _
  have hlen : (sortByTimestamp (items.map (mkLogDoc s.id now))).length ≤ 100 := by
    rw [hperm.length_eq, List.length_map]
    exact hn
  have hgl : (getLogs (postLogs db sid now (.many items)).2 sid none none).logs =
      sortByTimestamp (items.map (mkLogDoc s.id now)) := by
    unfold getLogs
    dsimp only [Option.getD]
    rw [hfilter]
    have hmin : min 1000 100 = 100 := by decide
    rw [hmin]
    simp only [Nat.zero_mul, List.drop_zero]
    exact List.take_of_length_le hlen
  refine ⟨by rw [h1]; simp, by rw [hgl]; exact hperm,
    by rw [hgl]; exact hsorted, by simp [mkLogDoc, hts]⟩

/-- Witness for postLogs_then_get_sorted: three items (one with no timestamp)
against a fresh one-session store. -/
theorem postLogs_then_get_sorted_witness :
    (postLogs ⟨[⟨1, 1, 0, none⟩], []⟩ 1 7
        (.many [⟨some "a", some 5, none⟩, ⟨some "b", none, none⟩,
          ⟨some "c", some 2, none⟩])).1 = .created 3 ∧
    ((getLogs (postLogs ⟨[⟨1, 1, 0, none⟩], []⟩ 1 7
        (.many [⟨some "a", some 5, none⟩, ⟨some "b", none, none⟩,
          ⟨some "c", some 2, none⟩])).2 1 none none).logs.Perm
      ([⟨some "a", some 5, none⟩, ⟨some "b", none, none⟩,
        ⟨some "c", some 2, none⟩].map (mkLogDoc 1 7))) ∧
    List.Pairwise tsLe
      (getLogs (postLogs ⟨[⟨1, 1, 0, none⟩], []⟩ 1 7
        (.many [⟨some "a", some 5, none⟩, ⟨some "b", none, none⟩,
          ⟨some "c", some 2, none⟩])).2 1 none none).logs ∧
    (mkLogDoc 1 7 ⟨some "x", none, none⟩).timestamp = 7 :=
  postLogs_then_get_sorted ⟨[⟨1, 1, 0, none⟩], []⟩ 1 7
    [⟨some "a", some 5, none⟩, ⟨some "b", none, none⟩,
      ⟨some "c", some 2, none⟩] ⟨1, 1, 0, none⟩ ⟨some "x", none, none⟩
    (by decide) rfl (by decide) rfl

end InterviewAssist
